import Mathlib

set_option maxRecDepth 40000

/-!
Verification development for the MyCollection repository
(backend/app/main.py, backend/import_hotwheels.py,
database/download_hotwheels.py).

Modelling conventions:
* Python strings are modelled as `List Nat` of Unicode code points
  (the `S` helper converts a Lean string literal).  The repository only
  manipulates code points via case mapping, whitespace stripping and
  character classes, all of which are defined below exactly as Python's
  ASCII behaviour on the data the repository handles.
* Python `None` is `Option.none`; a falsy string (`""`) is the empty list.
* Python floats appearing in the matcher (0.3, 0.25, 0.2, 0.12, 0.08, 0.8)
  are modelled as exact rationals.  At every input appearing in a theorem
  below the compared quantities are far from the decision thresholds, so
  the IEEE-754 rounding of the Python program cannot flip any branch
  decision that the rational model takes.
* `difflib.SequenceMatcher.ratio` is modelled by the Ratcliff-Obershelp
  recursion (longest matching block, earliest in `a` then in `b`, then
  recurse on both sides); the autojunk heuristic only applies to strings
  of length ≥ 200 and never triggers on the color strings considered here.
-/

/-- Code points of a string literal. -/
def S (s : String) : List Nat := s.toList.map Char.toNat

/-- Python `str.strip()` whitespace class (ASCII part). -/
def isPyWS (c : Nat) : Bool :=
  decide (c = 32 ∨ c = 9 ∨ c = 10 ∨ c = 13 ∨ c = 11 ∨ c = 12)

/-- ASCII decimal digit. -/
def isDigit (c : Nat) : Bool := decide (48 ≤ c ∧ c ≤ 57)

/-- Python `str.upper()` on one code point (ASCII). -/
def upperC (c : Nat) : Nat := if 97 ≤ c ∧ c ≤ 122 then c - 32 else c

/-- Python `str.lower()` on one code point (ASCII). -/
def lowerC (c : Nat) : Nat := if 65 ≤ c ∧ c ≤ 90 then c + 32 else c

/-- Python `str.lower()`. -/
def lowerL (l : List Nat) : List Nat := l.map lowerC

/-- Python `str.lstrip()`. -/
def lstrip : List Nat → List Nat
  | [] => []
  | c :: r => if isPyWS c then lstrip r else c :: r

/-- Python `str.rstrip()`. -/
def rstrip : List Nat → List Nat
  | [] => []
  | c :: r =>
    match rstrip r with
    | [] => if isPyWS c then [] else [c]
    | x :: t => c :: x :: t

/-- Python `str.strip()`. -/
def pyStrip (l : List Nat) : List Nat := rstrip (lstrip l)

/-- Collapse every maximal run of `p`-characters to a single `rep`
character, dropping a trailing run entirely (the callers strip the ends
afterwards, so this matches the regex-substitution-then-strip pipelines
of the source).  `p rep` must hold in every use. -/
def squeezeBy (p : Nat → Bool) (rep : Nat) (l : List Nat) : List Nat :=
  l.foldr
    (fun c acc =>
      if p c then
        match acc with
        | [] => []
        | a :: t => if a = rep then a :: t else rep :: a :: t
      else c :: acc)
    []

/-- Python `' '.join(text.split()).strip()` — the final step of
`_strip_html` in database/download_hotwheels.py applied to a cell's text
content (the HTML tag stripping and entity decoding are abstracted away:
cells enter the model as their text content). -/
def cellText (l : List Nat) : List Nat := lstrip (squeezeBy isPyWS 32 l)

/-- Python `str.split(sep)` for a one-character separator. -/
def splitOnC (sep : Nat) : List Nat → List (List Nat)
  | [] => [[]]
  | c :: rest =>
    match splitOnC sep rest with
    | [] => if c = sep then [[], []] else [[c]]
    | h :: t => if c = sep then [] :: h :: t else (c :: h) :: t

/-- Value of a run of ASCII digits (as produced by a `\d+` regex group;
always succeeds, like Python `int` on such a group). -/
def natOfDigits (l : List Nat) : Nat := l.foldl (fun a c => a * 10 + (c - 48)) 0

/-- Continuation of Python `int(str)` digit parsing after the first digit:
further digits, with single underscores allowed between digits. -/
def digitsUGo : Nat → List Nat → Option Nat
  | acc, [] => some acc
  | acc, 95 :: d :: rest =>
    if isDigit d then digitsUGo (acc * 10 + (d - 48)) rest else none
  | _, [95] => none
  | acc, c :: rest =>
    if isDigit c then digitsUGo (acc * 10 + (c - 48)) rest else none

/-- Python `int(str)` digit part: nonempty, starts with a digit,
single underscores allowed between digits. -/
def digitsU : List Nat → Option Nat
  | [] => none
  | c :: rest => if isDigit c then digitsUGo (c - 48) rest else none

/-- Python `int(str)`: optional surrounding whitespace, optional sign,
digits (with underscore separators).  `none` models a raised
`ValueError`, which every caller in the repository catches. -/
def pyIntL (l : List Nat) : Option Int :=
  match pyStrip l with
  | 43 :: rest => (digitsU rest).map (fun n => (n : Int))
  | 45 :: rest => (digitsU rest).map (fun n => -(n : Int))
  | rest => (digitsU rest).map (fun n => (n : Int))

/-- Substring test: `needle in haystack` for Python strings. -/
def isSubL (needle hay : List Nat) : Bool :=
  hay.tails.any (fun t => needle.isPrefixOf t)

/-- `re.search(r'(\d{4})', s)`: value of the first four consecutive
digits in `s`, if any. -/
def find4 : List Nat → Option Nat
  | a :: b :: c :: d :: rest =>
    if isDigit a && isDigit b && isDigit c && isDigit d then
      some (natOfDigits [a, b, c, d])
    else find4 (b :: c :: d :: rest)
  | _ => none

/-- Range-separator test of `parse_release_year`:
`' - ' in s or '–' in s or ' to ' in s.lower()` (8211 is the en-dash). -/
def hasRangeSep (l : List Nat) : Bool :=
  isSubL (S " - ") l || l.contains 8211 || isSubL (S " to ") (lowerL l)

/-- Year input domain of `parse_release_year`: `None`, an `int`, or a
string (any other Python value is coerced by `str()` before use and so
behaves as the string case). -/
inductive YearV where
  | none : YearV
  | int (n : Int) : YearV
  | str (s : List Nat) : YearV
deriving DecidableEq

/-- `parse_release_year` — identical in backend/app/main.py (lines 57-88)
and backend/import_hotwheels.py (lines 38-70): ints pass through, a
string with a range separator yields the first run of four digits, else
a direct `int` parse; every failure yields `none`. -/
def parse_release_year (v : YearV) : Option Int :=
  match v with
  | .none => none
  | .int n => some n
  | .str s =>
    let t := pyStrip s
    if t = [] then none
    else if hasRangeSep t then
      match find4 t with
      | some n => some (n : Int)
      | none => pyIntL t
    else pyIntL t

/-- Embedding of `Option Int` back into the year input domain, for the
idempotence statement (re-applying `parse_release_year` to its result). -/
def yearVOf : Option Int → YearV
  | Option.none => .none
  | Option.some n => .int n

/-- `re.sub(r'\d+/\d+$', '', s)` of `clean_series_name`: drop a trailing
digits-slash-digits suffix anchored at the very end. -/
def removeTrailFrac (l : List Nat) : List Nat :=
  let r := l.reverse
  let d2 := r.takeWhile isDigit
  if d2 = [] then l
  else
    match r.dropWhile isDigit with
    | 47 :: r2 =>
      let d1 := r2.takeWhile isDigit
      if d1 = [] then l else (r2.dropWhile isDigit).reverse
    | _ => l

/-- `re.sub(r'\d+$', '', s)`: drop a trailing digit run. -/
def removeTrailDigits (l : List Nat) : List Nat :=
  (l.reverse.dropWhile isDigit).reverse

/-- `clean_series_name` — identical in backend/app/main.py (lines 90-106)
and backend/import_hotwheels.py (lines 72-90): strip a trailing
`"<digits>/<digits>"`, then a trailing digit run, then whitespace;
fall back to the original text when the result is empty. -/
def clean_series_name (o : Option (List Nat)) : Option (List Nat) :=
  match o with
  | none => none
  | some s =>
    if s = [] then none
    else
      let cleaned := pyStrip (removeTrailDigits (removeTrailFrac s))
      if cleaned = [] then some s else some cleaned

/-- Shared body of both `normalize_toy_number` implementations on a
truthy input: `str(x).strip().upper().replace(' ', '')`. -/
def procToy (l : List Nat) : List Nat :=
  ((pyStrip l).map upperC).filter (fun c => !(c == 32))

/-- `normalize_toy_number` of backend/app/main.py (lines 48-55): falsy
input yields the empty string. -/
def appNormalizeToyNumber (o : Option (List Nat)) : List Nat :=
  match o with
  | none => []
  | some s => if s = [] then [] else procToy s

/-- `normalize_toy_number` of backend/import_hotwheels.py (lines 32-36):
falsy input yields `None`. -/
def importNormalizeToyNumber (o : Option (List Nat)) : Option (List Nat) :=
  match o with
  | none => none
  | some s => if s = [] then none else some (procToy s)

/-- A Python value that is either `None` or a string — the common result
type of the two `normalize_toy_number` implementations. -/
inductive PyV where
  | none : PyV
  | str (s : List Nat) : PyV
deriving DecidableEq

/-- Result of the app-side `normalize_toy_number` as a Python value
(always a string). -/
def appNormalizeV (o : Option (List Nat)) : PyV := .str (appNormalizeToyNumber o)

/-- Result of the importer-side `normalize_toy_number` as a Python value. -/
def importNormalizeV (o : Option (List Nat)) : PyV :=
  match importNormalizeToyNumber o with
  | none => .none
  | some s => .str s

/-- `text.replace("&nbsp;", " ")` of `normalize_header`
(database/download_hotwheels.py): the code points of `&nbsp;` are
38, 110, 98, 115, 112, 59. -/
def replaceNbsp : List Nat → List Nat
  | 38 :: 110 :: 98 :: 115 :: 112 :: 59 :: rest => 32 :: replaceNbsp rest
  | c :: rest => c :: replaceNbsp rest
  | [] => []

/-- Characters kept by `re.sub(r'[^a-z0-9# ]+', '', text)` in
`normalize_header`. -/
def keepHdrChar (c : Nat) : Bool :=
  decide ((97 ≤ c ∧ c ≤ 122) ∨ (48 ≤ c ∧ c ≤ 57) ∨ c = 35 ∨ c = 32)

/-- Whitespace-or-slash class of `re.sub(r'[\s/]+', ' ', text)`. -/
def isWSorSlash (c : Nat) : Bool := isPyWS c || c == 47

/-- `normalize_header` of `extract_versions_table`
(database/download_hotwheels.py, lines 465-470): lowercase, undo
`&nbsp;`, collapse whitespace/slash runs to single spaces, keep only
`[a-z0-9# ]`, strip. -/
def normalizeHeader (l : List Nat) : List Nat :=
  pyStrip ((squeezeBy isWSorSlash 32 (replaceNbsp (lowerL l))).filter keepHdrChar)

/-- Does the toy-number-column synonym regex
`Toy\s*#|Toy&nbsp;#|Toy\s*No\.?|Model\s*#|Sku` (case-insensitive) match
at the head of the (lowered) text? -/
def toySynAt (l : List Nat) : Bool :=
  ((S "toy").isPrefixOf l &&
    (((l.drop 3).dropWhile isPyWS).head? == some 35 ||
      (S "no").isPrefixOf ((l.drop 3).dropWhile isPyWS) ||
      (S "&nbsp;#").isPrefixOf (l.drop 3))) ||
  ((S "model").isPrefixOf l &&
    ((l.drop 5).dropWhile isPyWS).head? == some 35) ||
  (S "sku").isPrefixOf l

/-- `re.search` of the toy-number synonym set over a text. -/
def toySynMatch (l : List Nat) : Bool := l.tails.any toySynAt

/-- Does any cell of the row match the toy-number synonym set?
(The source runs the regex over the row's raw HTML; on the text-cell
abstraction a match lies inside some cell's text.) -/
def rowHasToySyn (row : List (List Nat)) : Bool :=
  row.any (fun cell => toySynMatch (lowerL (cellText cell)))

/-- Semantic column indices assigned from the normalized header cells
(`extract_versions_table`, lines 475-516). -/
structure ColIdx where
  toyIdx : Option Nat := none
  yearIdx : Option Nat := none
  seriesIdx : Option Nat := none
  colorIdx : Option Nat := none
  tampoIdx : Option Nat := none
  wheelIdx : Option Nat := none
  baseIdx : Option Nat := none
  windowIdx : Option Nat := none
  interiorIdx : Option Nat := none
  collectorIdx : Option Nat := none
  countryIdx : Option Nat := none
  notesIdx : Option Nat := none
  photoIdx : Option Nat := none
deriving DecidableEq

/-- One step of the header-to-column `elif` chain of
`extract_versions_table` (lines 489-516), most specific first. -/
def updateCol (st : ColIdx) (i : Nat) (h : List Nat) : ColIdx :=
  if isSubL (S "interior") h then { st with interiorIdx := some i }
  else if isSubL (S "window") h then { st with windowIdx := some i }
  else if isSubL (S "base") h && !isSubL (S "code") h then
    { st with baseIdx := some i }
  else if (isSubL (S "col") h && isSubL (S "#") h) || isSubL (S "collector") h then
    { st with collectorIdx := some i }
  else if isSubL (S "country") h then { st with countryIdx := some i }
  else if isSubL (S "notes") h then { st with notesIdx := some i }
  else if isSubL (S "photo") h then { st with photoIdx := some i }
  else if isSubL (S "toy") h || (isSubL (S "#") h && !isSubL (S "col") h) then
    { st with toyIdx := some i }
  else if isSubL (S "year") h then { st with yearIdx := some i }
  else if isSubL (S "series") h then { st with seriesIdx := some i }
  else if isSubL (S "color") h && !isSubL (S "base") h && !isSubL (S "window") h
      && !isSubL (S "interior") h then
    { st with colorIdx := some i }
  else if isSubL (S "tampo") h then { st with tampoIdx := some i }
  else if isSubL (S "wheel") h then { st with wheelIdx := some i }
  else st

/-- Fold the `elif` chain over the indexed normalized headers. -/
def assignCols (hs : List (List Nat)) : ColIdx :=
  hs.enum.foldl (fun st p => updateCol st p.1 p.2) {}

/-- `re.search(r'(\d+)/(\d+)\s*$', series)` plus the corresponding
`re.sub(...).strip()`: a trailing digits/digits suffix (with optional
trailing whitespace), its two values and the cleaned series text. -/
def seriesTrailFrac (l : List Nat) : Option (Nat × Nat × List Nat) :=
  let r := l.reverse
  let r0 := r.dropWhile isPyWS
  let d2 := r0.takeWhile isDigit
  if d2 = [] then none
  else
    match r0.dropWhile isDigit with
    | 47 :: r2 =>
      let d1 := r2.takeWhile isDigit
      if d1 = [] then none
      else
        some (natOfDigits d1.reverse, natOfDigits d2.reverse,
          pyStrip ((r2.dropWhile isDigit).reverse))
    | _ => none

/-- One row of the Versions table, restricted to the columns the claims
are about.  The remaining columns (base, window, interior, collector
number, country, notes/base_code, photo) follow the same per-column
pattern, are independent of these fields, and — in the photo case —
need raw HTML attributes that the text-cell abstraction does not carry;
they are tracked for column assignment but not materialized. -/
structure VersionRow where
  toy_number : List Nat
  year : Option (List Nat) := none
  series : Option (List Nat) := none
  series_position : Option Int := none
  series_total : Option Int := none
  body_color : Option (List Nat) := none
  tampo : Option (List Nat) := none
  wheel_type : Option (List Nat) := none
deriving DecidableEq

/-- A placeholder-normalized column value:
`text if text and text != '-' else None`. -/
def getPlaceholderCol (idx : Option Nat) (cells : List (List Nat)) :
    Option (List Nat) :=
  match idx with
  | some j =>
    match cells.get? j with
    | some c =>
      let t := cellText c
      if t = [] then none else if t = S "-" then none else some t
    | none => none
  | none => none

/-- Processing of one data row of the Versions table
(`extract_versions_table`, lines 519-649, restricted to the materialized
columns): the row is dropped when it has no cells, no resolved
toy-number cell, or a toy-number cell that is empty or `"-"`. -/
def processRow (ci : ColIdx) (cells : List (List Nat)) : Option VersionRow :=
  if cells = [] then none
  else
    match ci.toyIdx with
    | none => none
    | some i =>
      match cells.get? i with
      | none => none
      | some cell =>
        let toyNum := cellText cell
        if toyNum = [] then none
        else if toyNum = S "-" then none
        else
          let toy := (toyNum.map upperC).filter (fun c => !(c == 32))
          let yr :=
            match ci.yearIdx with
            | some j => (cells.get? j).map cellText
            | none => none
          let serTriple :=
            match ci.seriesIdx with
            | some j =>
              match cells.get? j with
              | some sc =>
                let s := cellText sc
                match seriesTrailFrac s with
                | some (a, b, cleaned) =>
                  (some cleaned, some (a : Int), some (b : Int))
                | none => (some s, (none : Option Int), (none : Option Int))
              | none => (none, none, none)
            | none => (none, none, none)
          some { toy_number := toy, year := yr,
                 series := serTriple.1,
                 series_position := serTriple.2.1,
                 series_total := serTriple.2.2,
                 body_color := getPlaceholderCol ci.colorIdx cells,
                 tampo := getPlaceholderCol ci.tampoIdx cells,
                 wheel_type := getPlaceholderCol ci.wheelIdx cells }

/-- `extract_versions_table` (database/download_hotwheels.py, lines
416-651) on the selected table, abstracted to its rows of cell texts:
needs at least a header row plus one data row; the header row is the
first row matching the toy-number synonym set (defaulting to row 0);
subsequent rows are processed by `processRow` in order. -/
def extract_versions_table (rows : List (List (List Nat))) : List VersionRow :=
  if rows.length < 2 then []
  else
    let hIdx := (rows.findIdx? rowHasToySyn).getD 0
    let headerCells := (rows.get? hIdx).getD []
    let normHeaders := headerCells.map (fun c => normalizeHeader (lowerL (cellText c)))
    let ci := assignCols normHeaders
    (rows.drop (hIdx + 1)).filterMap (processRow ci)
/-- Length of the common prefix of two lists. -/
def commonPrefixLen : List Nat → List Nat → Nat
  | x :: xs, y :: ys => if x = y then commonPrefixLen xs ys + 1 else 0
  | _, _ => 0

/-- `SequenceMatcher.find_longest_match` over the whole strings: the
longest matching block `(k, i, j)`, with the earliest start in `a` and
then in `b` among maximal blocks. -/
def bestTriple (a b : List Nat) : Nat × Nat × Nat :=
  (List.range a.length).foldl
    (fun best i =>
      (List.range b.length).foldl
        (fun best2 j =>
          let k := commonPrefixLen (a.drop i) (b.drop j)
          if best2.1 < k then (k, i, j) else best2)
        best)
    (0, 0, 0)

/-- Total matched characters of `SequenceMatcher.get_matching_blocks`
(Ratcliff-Obershelp): longest block plus recursion left and right of it.
The fuel argument bounds the recursion depth; `|a| + |b| + 1` always
suffices since both sides shrink strictly. -/
def matchTotal : Nat → List Nat → List Nat → Nat
  | 0, _, _ => 0
  | fuel + 1, a, b =>
    let t := bestTriple a b
    if t.1 = 0 then 0
    else
      t.1 + matchTotal fuel (a.take t.2.1) (b.take t.2.2) +
        matchTotal fuel (a.drop (t.2.1 + t.1)) (b.drop (t.2.2 + t.1))

/-- `fuzzy_ratio` (backend/app/main.py, lines 126-129):
`SequenceMatcher(None, a, b).ratio()` = `2*M/(|a|+|b|)` as an exact
rational, and 0 when either string is falsy. -/
def fuzzy_ratio (a b : List Nat) : ℚ :=
  if a = [] ∨ b = [] then 0
  else (2 * (matchTotal (a.length + b.length + 1) a b) : ℚ) /
    ((a.length + b.length : Nat) : ℚ)

/-- The executable form of the comparison `fuzzy_ratio a b >= 0.8` used
inside the matcher: for nonempty strings, `2M/(|a|+|b|) ≥ 4/5` iff
`4(|a|+|b|) ≤ 10M` (cross-multiplied; the rational form is recovered by
`fuzzyGE45_iff` below). -/
def fuzzyGE45 (a b : List Nat) : Bool :=
  if a = [] ∨ b = [] then false
  else
    decide (4 * (a.length + b.length) ≤
      10 * matchTotal (a.length + b.length + 1) a b)

/-- Character class removed by `re.sub(r'[^a-z0-9]+', ' ', ...)` in
`normalize_color_string` and `normalize_color_tokens`. -/
def isNotLowAlnum (c : Nat) : Bool :=
  !(decide ((97 ≤ c ∧ c ≤ 122) ∨ (48 ≤ c ∧ c ≤ 57)))

/-- `normalize_color_string` (backend/app/main.py, lines 131-132):
replace non-alphanumeric runs of the lowered text by single spaces and
strip. -/
def normalize_color_string (l : List Nat) : List Nat :=
  lstrip (squeezeBy isNotLowAlnum 32 (lowerL l))

/-- The fixed base-color palette of `normalize_color_tokens`. -/
def basePalette : List (List Nat) :=
  [S "black", S "white", S "red", S "blue", S "green", S "yellow",
   S "orange", S "purple", S "pink", S "gold", S "silver", S "gray",
   S "brown", S "tan", S "bronze", S "chrome"]

/-- `normalize_color_tokens` (backend/app/main.py, lines 108-124):
tokenize on non-alphanumeric runs, map `grey` to `gray`, keep only
palette members (returned as a list; only emptiness and intersection
are ever used, matching the source's set usage). -/
def normalize_color_tokens (l : List Nat) : List (List Nat) :=
  (((splitOnC 32 (normalize_color_string l)).filter
      (fun w => !w.isEmpty)).map
    (fun w => if w = S "grey" then S "gray" else w)).filter
    (fun w => basePalette.contains w)

/-- First color tier of `match_variant_by_features` (line 199): one
cleaned, case-insensitive color string is a substring of the other. -/
def colorSub (a b : List Nat) : Bool :=
  isSubL (pyStrip (lowerL a)) (pyStrip (lowerL b)) ||
  isSubL (pyStrip (lowerL b)) (pyStrip (lowerL a))

/-- Second color tier (lines 203-205): both palette token sets nonempty
and intersecting. -/
def colorTok (a b : List Nat) : Bool :=
  let ta := normalize_color_tokens (pyStrip (lowerL a))
  let tb := normalize_color_tokens (pyStrip (lowerL b))
  !ta.isEmpty && !tb.isEmpty && ta.any (fun w => tb.contains w)

/-- Similarity ratio used by the third color tier (lines 209-213), as
an exact rational, for use in claim statements. -/
def colorSim (a b : List Nat) : ℚ :=
  fuzzy_ratio (normalize_color_string (pyStrip (lowerL a)))
    (normalize_color_string (pyStrip (lowerL b)))

/-- All score contributions of the matcher are exact multiples of 0.01
(0.30, 0.25, 0.20, 0.12, 0.08, threshold 0.80), so scores are modelled
in integer hundredths; `scoreQ` recovers the rational score.  At every
input appearing in a theorem below the Python float comparisons agree
with this exact model. -/
def scoreQ (n : Nat) : ℚ := (n : ℚ) / 100

/-- Color term of `match_variant_by_features` (lines 196-215), as
(score hundredths, matches increment): `+0.20` substring tier, else
`+0.12` token tier, else `+0.08` when the similarity ratio is ≥ 0.8. -/
def colorTerm (a b : List Nat) : Nat × Nat :=
  if colorSub a b then (20, 1)
  else if colorTok a b then (12, 1)
  else if fuzzyGE45 (normalize_color_string (pyStrip (lowerL a)))
      (normalize_color_string (pyStrip (lowerL b))) then (8, 1)
  else (0, 0)

/-- A catalog variant, restricted to the fields `identify_car` and
`match_variant_by_features` read. -/
structure Variant where
  car_id : Nat
  toy_number : Option (List Nat) := none
  release_year : Option Int := none
  series_name : Option (List Nat) := none
  series_position : Option Int := none
  series_total : Option Int := none
  body_color : Option (List Nat) := none
deriving DecidableEq

/-- Truthiness of an optional string. -/
def truthyS : Option (List Nat) → Bool
  | some s => !s.isEmpty
  | none => false

/-- Score (in hundredths) and match count of one candidate in
`match_variant_by_features` (backend/app/main.py, lines 174-222). -/
def scoreVariant (year : Option Int) (series color : Option (List Nat))
    (sp st : Option Int) (v : Variant) : Nat × Nat :=
  let yearT : Nat × Nat :=
    match year, v.release_year with
    | some y, some ry => if y = ry then (30, 1) else (0, 0)
    | _, _ => (0, 0)
  let seriesT : Nat × Nat :=
    if truthyS series && truthyS v.series_name then
      match clean_series_name series, clean_series_name v.series_name with
      | some sc, some vc =>
        if !sc.isEmpty && !vc.isEmpty then
          let sl := pyStrip (lowerL sc)
          let vl := pyStrip (lowerL vc)
          if isSubL sl vl || isSubL vl sl then (25, 1) else (0, 0)
        else (0, 0)
      | _, _ => (0, 0)
    else (0, 0)
  let colorT : Nat × Nat :=
    match color, v.body_color with
    | some c, some bc =>
      if !c.isEmpty && !bc.isEmpty then colorTerm c bc else (0, 0)
    | _, _ => (0, 0)
  let posT : Nat × Nat :=
    match sp, st with
    | some p, some t =>
      if v.series_position = some p ∧ v.series_total = some t then (25, 1)
      else (0, 0)
    | _, _ => (0, 0)
  (yearT.1 + seriesT.1 + colorT.1 + posT.1,
   yearT.2 + seriesT.2 + colorT.2 + posT.2)

/-- The best-match record returned by `match_variant_by_features`
(score in hundredths). -/
structure BestMatch where
  variant : Variant
  score : Nat
  matchCount : Nat
deriving DecidableEq

/-- `match_variant_by_features` (backend/app/main.py, lines 156-228):
fold over the candidates keeping the first strictly-better score. -/
def match_variant_by_features (variants : List Variant) (year : Option Int)
    (series color : Option (List Nat)) (sp st : Option Int) :
    Option BestMatch :=
  if variants.isEmpty then none
  else
    (variants.foldl
      (fun (acc : Nat × Option BestMatch) v =>
        let sm := scoreVariant year series color sp st v
        if acc.1 < sm.1 then (sm.1, some ⟨v, sm.1, sm.2⟩) else acc)
      (0, none)).2

/-- `parse_series_number` (backend/app/main.py, lines 134-154):
`"238/250"` to `(238, 250)`, `(none, none)` on any failure —
note that this parse is atomic, unlike the importer's inline copy. -/
def parse_series_number (o : Option (List Nat)) : Option Int × Option Int :=
  match o with
  | none => (none, none)
  | some s =>
    if s.isEmpty then (none, none)
    else if !(s.contains 47) then (none, none)
    else
      match splitOnC 47 s with
      | [p, q] =>
        match pyIntL p, pyIntL q with
        | some a, some b => (some a, some b)
        | _, _ => (none, none)
      | _ => (none, none)

/-- Outcome of the identify operation: a confident single-car response,
or the fall-through car response carrying the candidates' car
(the spec's `AmbiguousSet`).  `NotFound` is the `Except.error 404` of
`identify_car` itself. -/
inductive IdOutcome where
  | single (carId : Nat) : IdOutcome
  | ambiguous (carId : Nat) : IdOutcome
deriving DecidableEq

deriving instance DecidableEq for Except

/-- The fall-through branch of `identify_car` (lines 295-302): collapse
the candidates' car ids; a unique id is returned directly, otherwise
the first variant's car id. -/
def ambiguousOf : List Variant → Except Nat IdOutcome
  | [] => .ok (.ambiguous 0)
  | v :: vs =>
    match ((v :: vs).map (fun x => x.car_id)).dedup with
    | [i] => .ok (.ambiguous i)
    | _ => .ok (.ambiguous v.car_id)

/-- The series-number preprocessing of `identify_car` (lines 282-285):
a truthy `series_number` query parameter is parsed into a
position/total pair. -/
def querySpSt (series_number : Option (List Nat)) : Option Int × Option Int :=
  if truthyS series_number then parse_series_number series_number
  else (none, none)

/-- `identify_car` (backend/app/main.py, lines 246-302) after candidate
lookup: no candidate raises HTTP 404 (modelled as `Except.error 404`);
one candidate returns its car without scoring; otherwise the best match
wins when its score exceeds 0.80 (80 hundredths), else the fall-through
car response. -/
def identify_car (variants : List Variant) (year : Option Int)
    (series color series_number : Option (List Nat)) :
    Except Nat IdOutcome :=
  match variants with
  | [] => .error 404
  | [v] => .ok (.single v.car_id)
  | v0 :: v1 :: rest =>
    match match_variant_by_features (v0 :: v1 :: rest) year series color
        (querySpSt series_number).1 (querySpSt series_number).2 with
    | some b =>
      if 80 < b.score then .ok (.single b.variant.car_id)
      else ambiguousOf (v0 :: v1 :: rest)
    | none => ambiguousOf (v0 :: v1 :: rest)
/-- One variant source dictionary of `import_data`
(backend/import_hotwheels.py): the merged top-level/version fields that
the per-variant loop reads. -/
structure VSource where
  toy_number : Option (List Nat) := none
  release_year : YearV := .none
  series_name : Option (List Nat) := none
  series_position : Option Int := none
  series_total : Option Int := none
  series_number : Option (List Nat) := none
  body_color : Option (List Nat) := none
  tampo : Option (List Nat) := none
  wheel_type : Option (List Nat) := none
  base_color : Option (List Nat) := none
  window_color : Option (List Nat) := none
  interior_color : Option (List Nat) := none
  treasure_hunt : Bool := false
  super_treasure_hunt : Bool := false
  exclusive : Option (List Nat) := none
deriving DecidableEq

/-- One variant row prepared for bulk insert by `import_data`
(backend/import_hotwheels.py, lines 303-321; the generated UUIDs are
outside the model). -/
structure VRecord where
  toy_number : Option (List Nat)
  desc : List Nat
  is_chase : Bool
  treasure_hunt : Bool
  super_treasure_hunt : Bool
  release_year : Option Int
  series_name : Option (List Nat)
  series_position : Option Int
  series_total : Option Int
  body_color : Option (List Nat)
  tampo : Option (List Nat)
  wheel_type : Option (List Nat)
  base_color : Option (List Nat)
  window_color : Option (List Nat)
  interior_color : Option (List Nat)
deriving DecidableEq

/-- `" - ".join(parts)`. -/
def joinSep (sep : List Nat) : List (List Nat) → List Nat
  | [] => []
  | [w] => w
  | w :: w2 :: ws => w ++ sep ++ joinSep sep (w2 :: ws)

/-- `create_variant_description` (backend/import_hotwheels.py,
lines 92-115). -/
def create_variant_description (v : VSource) : List Nat :=
  let parts : List (List Nat) :=
    (match v.body_color with
     | some c => if c = [] then [] else [c]
     | none => []) ++
    (match v.tampo with
     | some t => if t = [] then [] else [S "Tampo: " ++ t]
     | none => []) ++
    (match v.wheel_type with
     | some w => if w = [] then [] else [S "Wheels: " ++ w]
     | none => []) ++
    (if v.super_treasure_hunt then [S "Super Treasure Hunt"]
     else if v.treasure_hunt then [S "Treasure Hunt"] else []) ++
    (match v.exclusive with
     | some e => if e = [] then [] else [S "Exclusive: " ++ e]
     | none => [])
  if parts = [] then S "Standard Edition" else joinSep (S " - ") parts

/-- The inline series-fraction parse of `import_data` (lines 252-261 and
268-276).  Unlike `parse_series_number`, the two `int()` calls run in
sequence inside one `try`: when the left side parses and the right side
raises, the already-assigned left value survives the caught exception. -/
def importFracParse (t : List Nat) : Option Int × Option Int :=
  match splitOnC 47 t with
  | [p, q] =>
    match pyIntL p with
    | none => (none, none)
    | some a =>
      match pyIntL q with
      | none => (some a, none)
      | some b => (some a, some b)
  | _ => (none, none)

/-- The per-variant toy number of `import_data` after the slash check
(lines 245-261): a normalized toy number containing `/` is cleared. -/
def toyAfterSlash (v : VSource) : Option (List Nat) :=
  match importNormalizeToyNumber v.toy_number with
  | some t => if t.contains 47 then none else some t
  | none => none

/-- The per-variant series position/total of `import_data`
(lines 250-276): from a slashed toy number (inline parse), else from
already-extracted fields (both required), else from a slashed
`series_number` (inline parse), else absent. -/
def posTotOf (v : VSource) : Option Int × Option Int :=
  match importNormalizeToyNumber v.toy_number with
  | some t =>
    if t.contains 47 then importFracParse t
    else
      if v.series_position ≠ none ∧ v.series_total ≠ none then
        (v.series_position, v.series_total)
      else
        match v.series_number with
        | some sn =>
          if sn ≠ [] ∧ sn.contains 47 then importFracParse sn
          else (none, none)
        | none => (none, none)
  | none =>
    if v.series_position ≠ none ∧ v.series_total ≠ none then
      (v.series_position, v.series_total)
    else
      match v.series_number with
      | some sn =>
        if sn ≠ [] ∧ sn.contains 47 then importFracParse sn
        else (none, none)
      | none => (none, none)

/-- The variant row built from one source by `import_data`
(lines 244-321). -/
def recordOf (v : VSource) : VRecord :=
  { toy_number := toyAfterSlash v,
    desc := create_variant_description v,
    is_chase := v.super_treasure_hunt || v.treasure_hunt,
    treasure_hunt := v.treasure_hunt,
    super_treasure_hunt := v.super_treasure_hunt,
    release_year := parse_release_year v.release_year,
    series_name := clean_series_name v.series_name,
    series_position := (posTotOf v).1,
    series_total := (posTotOf v).2,
    body_color := v.body_color,
    tampo := v.tampo,
    wheel_type := v.wheel_type,
    base_color := v.base_color,
    window_color := v.window_color,
    interior_color := v.interior_color }

/-- The pre-loop filter of `import_data` (lines 213-216): keep only
sources whose normalized toy number is truthy. -/
def keepSource (v : VSource) : Bool :=
  match importNormalizeToyNumber v.toy_number with
  | some t => !t.isEmpty
  | none => false

/-- The duplicate-check key of `import_data` (lines 282-288): computed
toy number, parsed release year, raw series name and body color, looked
up against the pre-existing database rows. -/
def dedupKeyOf (v : VSource) :
    Option (List Nat) × Option Int × Option (List Nat) × Option (List Nat) :=
  (toyAfterSlash v, parse_release_year v.release_year, v.series_name,
   v.body_color)

/-- The variant rows `import_data` prepares for one casting
(lines 196-321): filter out sources without a toy number, then emit one
row per surviving source unless the `existing` database lookup reports
a duplicate.  `existing` abstracts the per-key database query; a fresh
database is `fun _ => false`. -/
def importVariantsForCar
    (existing :
      Option (List Nat) × Option Int × Option (List Nat) × Option (List Nat)
        → Bool)
    (sources : List VSource) : List VRecord :=
  (sources.filter keepSource).foldl
    (fun acc v => if existing (dedupKeyOf v) then acc else acc ++ [recordOf v])
    []

/-- The candidate of the spec's matcher scenario with
`release_year=2025, series_name="Wild Widebody", body_color="Chrome"`
(and series position 5/5, matched only by the second query). -/
def wildVariant : Variant :=
  { car_id := 1, toy_number := some (S "HYW54"), release_year := some 2025,
    series_name := some (S "Wild Widebody"), series_position := some 5,
    series_total := some 5, body_color := some (S "Chrome") }

/-- The second candidate of the scenario: `release_year=2010` and no
other matching features. -/
def otherVariant : Variant :=
  { car_id := 2, toy_number := some (S "HYW54"), release_year := some 2010 }

/-- A data row's resolved toy-number cell is missing, empty, or the
placeholder `"-"` (the discard condition of `extract_versions_table`,
lines 527-534). -/
def toyCellBad (ci : ColIdx) (row : List (List Nat)) : Bool :=
  match ci.toyIdx with
  | none => true
  | some i =>
    match row.get? i with
    | none => true
    | some cell =>
      decide (cellText cell = []) || decide (cellText cell = S "-")

/-! ### String infrastructure lemmas -/

theorem lstrip_head_false (l : List Nat) (x : Nat)
    (h : (lstrip l).head? = some x) : isPyWS x = false := by
  induction l with
  | nil => simp [lstrip] at h
  | cons c r ih =>
    by_cases hc : isPyWS c = true
    · rw [lstrip, if_pos hc] at h
      exact ih h
    · rw [lstrip, if_neg hc] at h
      simp only [List.head?_cons, Option.some.injEq] at h
      subst h
      simpa using hc

theorem rstrip_head_sub (l : List Nat) (x : Nat)
    (h : (rstrip l).head? = some x) : l.head? = some x := by
  cases l with
  | nil => simp [rstrip] at h
  | cons c r =>
    rw [rstrip] at h
    cases hr : rstrip r with
    | nil =>
      rw [hr] at h
      by_cases hc : isPyWS c = true
      · simp [hc] at h
      · simp only [if_neg hc, List.head?_cons, Option.some.injEq] at h
        simp [h]
    | cons y t =>
      rw [hr] at h
      simp only [List.head?_cons, Option.some.injEq] at h
      simp [h]

theorem rstrip_last_false (l : List Nat) (x : Nat)
    (h : (rstrip l).getLast? = some x) : isPyWS x = false := by
  induction l with
  | nil => simp [rstrip] at h
  | cons c r ih =>
    rw [rstrip] at h
    cases hr : rstrip r with
    | nil =>
      rw [hr] at h
      by_cases hc : isPyWS c = true
      · simp [hc] at h
      · simp only [if_neg hc, List.getLast?_singleton, Option.some.injEq] at h
        subst h
        simpa using hc
    | cons y t =>
      rw [hr, List.getLast?_cons_cons, ← hr] at h
      exact ih h

theorem lstrip_noop (l : List Nat)
    (h : ∀ x, l.head? = some x → isPyWS x = false) : lstrip l = l := by
  cases l with
  | nil => rfl
  | cons c r =>
    have hc := h c (by simp)
    rw [lstrip, if_neg (by simp [hc])]

theorem rstrip_noop (l : List Nat)
    (h : ∀ x, l.getLast? = some x → isPyWS x = false) : rstrip l = l := by
  induction l with
  | nil => rfl
  | cons c r ih =>
    rw [rstrip]
    cases r with
    | nil =>
      have hc := h c (by simp)
      simp [rstrip, hc]
    | cons d t =>
      have hr : rstrip (d :: t) = d :: t :=
        ih (fun x hx => h x (by rw [List.getLast?_cons_cons]; exact hx))
      rw [hr]

theorem pyStrip_head_false (l : List Nat) (x : Nat)
    (h : (pyStrip l).head? = some x) : isPyWS x = false :=
  lstrip_head_false l x (rstrip_head_sub (lstrip l) x h)

theorem pyStrip_last_false (l : List Nat) (x : Nat)
    (h : (pyStrip l).getLast? = some x) : isPyWS x = false :=
  rstrip_last_false (lstrip l) x h

theorem pyStrip_noop (l : List Nat)
    (h1 : ∀ x, l.head? = some x → isPyWS x = false)
    (h2 : ∀ x, l.getLast? = some x → isPyWS x = false) : pyStrip l = l := by
  rw [pyStrip, lstrip_noop l h1, rstrip_noop l h2]

theorem isPyWS_upperC (c : Nat) : isPyWS (upperC c) = isPyWS c := by
  rw [upperC]
  split
  · rename_i h
    simp only [isPyWS, decide_eq_decide]
    omega
  · rfl

theorem upperC_idem (c : Nat) : upperC (upperC c) = upperC c := by
  unfold upperC
  split
  · rename_i h
    rw [if_neg (by omega)]
  · rfl

theorem upperC_ne_32 (c : Nat) (h : isPyWS c = false) : upperC c ≠ 32 := by
  simp only [isPyWS, decide_eq_false_iff_not] at h
  unfold upperC
  split <;> omega

theorem map_id_of_mem {f : Nat → Nat} (l : List Nat)
    (h : ∀ x ∈ l, f x = x) : l.map f = l := by
  induction l with
  | nil => rfl
  | cons c r ih =>
    rw [List.map_cons, h c (by simp), ih (fun x hx => h x (by simp [hx]))]

theorem filter_self_of_mem {p : Nat → Bool} (l : List Nat)
    (h : ∀ x ∈ l, p x = true) : l.filter p = l := by
  induction l with
  | nil => rfl
  | cons c r ih =>
    rw [List.filter_cons, if_pos (h c (by simp)),
      ih (fun x hx => h x (by simp [hx]))]

theorem filter_getLast_keep {p : Nat → Bool} (l : List Nat) (x : Nat)
    (hl : l.getLast? = some x) (hp : p x = true) :
    (l.filter p).getLast? = some x := by
  induction l with
  | nil => simp at hl
  | cons c r ih =>
    cases r with
    | nil =>
      simp only [List.getLast?_singleton, Option.some.injEq] at hl
      subst hl
      simp [List.filter_cons, hp]
    | cons d t =>
      rw [List.getLast?_cons_cons] at hl
      have hr := ih hl
      rw [List.filter_cons]
      by_cases hc : p c = true
      · rw [if_pos hc]
        cases hf : (d :: t).filter p with
        | nil => rw [hf] at hr; simp at hr
        | cons y u =>
          rw [hf] at hr
          rw [List.getLast?_cons_cons]
          exact hr
      · rw [if_neg hc]
        exact hr

theorem getLast?_map_upperC (l : List Nat) :
    (l.map upperC).getLast? = l.getLast?.map upperC := by
  induction l with
  | nil => rfl
  | cons c r ih =>
    cases r with
    | nil => rfl
    | cons d t =>
      rw [List.map_cons, List.map_cons, List.getLast?_cons_cons,
        List.getLast?_cons_cons, ← List.map_cons]
      exact ih

theorem procToy_head_false (s : List Nat) (x : Nat)
    (h : (procToy s).head? = some x) : isPyWS x = false := by
  rw [procToy] at h
  cases ht : pyStrip s with
  | nil => rw [ht] at h; simp at h
  | cons y0 t =>
    have hy0 : isPyWS y0 = false :=
      pyStrip_head_false s y0 (by rw [ht]; rfl)
    have hne : (!(upperC y0 == 32)) = true := by
      simpa using upperC_ne_32 y0 hy0
    rw [ht, List.map_cons, List.filter_cons, if_pos hne] at h
    simp only [List.head?_cons, Option.some.injEq] at h
    subst h
    rw [isPyWS_upperC]
    exact hy0

theorem procToy_last_false (s : List Nat) (x : Nat)
    (h : (procToy s).getLast? = some x) : isPyWS x = false := by
  rw [procToy] at h
  cases ht : pyStrip s with
  | nil => rw [ht] at h; simp at h
  | cons y0 t =>
    cases hyl : (y0 :: t).getLast? with
    | none => simp at hyl
    | some yl =>
      have hylws : isPyWS yl = false :=
        pyStrip_last_false s yl (by rw [ht]; exact hyl)
      have hm : ((y0 :: t).map upperC).getLast? = some (upperC yl) := by
        rw [getLast?_map_upperC, hyl]; rfl
      have hq : (!(upperC yl == 32)) = true := by
        simpa using upperC_ne_32 yl hylws
      have hk := @filter_getLast_keep (fun c => !(c == 32))
        ((y0 :: t).map upperC) (upperC yl) hm hq
      rw [ht, hk] at h
      simp only [Option.some.injEq] at h
      subst h
      rw [isPyWS_upperC]
      exact hylws

theorem procToy_chars_fixed (s : List Nat) (x : Nat) (hx : x ∈ procToy s) :
    upperC x = x := by
  rw [procToy] at hx
  have hm : x ∈ (pyStrip s).map upperC := List.mem_of_mem_filter hx
  obtain ⟨y, -, rfl⟩ := List.mem_map.1 hm
  exact upperC_idem y

theorem procToy_chars_kept (s : List Nat) (x : Nat) (hx : x ∈ procToy s) :
    (!(x == 32)) = true := by
  rw [procToy] at hx
  exact (List.mem_filter.1 hx).2

theorem procToy_fix (s : List Nat) : procToy (procToy s) = procToy s := by
  have hstrip : pyStrip (procToy s) = procToy s :=
    pyStrip_noop (procToy s) (procToy_head_false s) (procToy_last_false s)
  have hmap : (procToy s).map upperC = procToy s :=
    map_id_of_mem (procToy s) (procToy_chars_fixed s)
  have hfil : (procToy s).filter (fun c => !(c == 32)) = procToy s :=
    filter_self_of_mem (procToy s) (procToy_chars_kept s)
  calc procToy (procToy s)
      = ((pyStrip (procToy s)).map upperC).filter (fun c => !(c == 32)) := rfl
    _ = procToy s := by rw [hstrip, hmap, hfil]

/-! ### Assembler, extractor and matcher helper lemmas -/

theorem foldl_snoc_map {α β : Type} (f : α → β) (l : List α) (acc : List β) :
    l.foldl (fun a v => a ++ [f v]) acc = acc ++ l.map f := by
  induction l generalizing acc with
  | nil => simp
  | cons c r ih => simp [ih, List.append_assoc]

theorem toyFilter_ne_nil (t : List Nat) (ht : t ≠ [])
    (hh : ∀ x, t.head? = some x → isPyWS x = false) :
    (t.map upperC).filter (fun c => !(c == 32)) ≠ [] := by
  cases t with
  | nil => exact absurd rfl ht
  | cons c0 t' =>
    have hws : isPyWS c0 = false := hh c0 rfl
    have hne : (!(upperC c0 == 32)) = true := by
      simpa using upperC_ne_32 c0 hws
    rw [List.map_cons, List.filter_cons, if_pos hne]
    simp

theorem ambiguousOf_ok (v0 : Variant) (vs : List Variant) :
    ∃ i, ambiguousOf (v0 :: vs) = Except.ok (.ambiguous i) := by
  simp only [ambiguousOf]
  cases h : ((v0 :: vs).map (fun x => x.car_id)).dedup with
  | nil => exact ⟨v0.car_id, rfl⟩
  | cons i t =>
    cases t with
    | nil => exact ⟨i, rfl⟩
    | cons j u => exact ⟨v0.car_id, rfl⟩

theorem fuzzyGE45_iff (a b : List Nat) :
    fuzzyGE45 a b = true ↔ (4/5 : ℚ) ≤ fuzzy_ratio a b := by
  unfold fuzzyGE45 fuzzy_ratio
  by_cases h : a = [] ∨ b = []
  · rw [if_pos h, if_pos h]
    norm_num
  · have ha : a ≠ [] := fun h0 => h (Or.inl h0)
    have hL : 0 < a.length + b.length := by
      have := List.length_pos.2 ha
      omega
    have hLQ : (0 : ℚ) < ((a.length + b.length : Nat) : ℚ) := by
      exact_mod_cast hL
    rw [if_neg h, if_neg h,
      div_le_div_iff₀ (by norm_num : (0 : ℚ) < 5) hLQ, decide_eq_true_eq]
    constructor
    · intro hx
      have hc : ((4 * (a.length + b.length) : Nat) : ℚ) ≤
          ((10 * matchTotal (a.length + b.length + 1) a b : Nat) : ℚ) :=
        Nat.cast_le.2 hx
      push_cast at hc ⊢
      linarith
    · intro hx
      push_cast at hx
      have hc : ((4 * (a.length + b.length) : Nat) : ℚ) ≤
          ((10 * matchTotal (a.length + b.length + 1) a b : Nat) : ℚ) := by
        push_cast
        linarith
      exact_mod_cast hc

/-! ### Claim theorems -/

/-- C1 (counterexample): at query color `"maroonx"` against variant color
`"maroony"`, neither the substring tier nor the token tier applies and the
similarity ratio is `6/7 ≥ 0.8`, yet the color term contributes the flat
`0.08`, not `0.08 × (6/7)` as the claim states. -/
theorem c1_counterexample :
    colorSub (S "maroonx") (S "maroony") = false ∧
    colorTok (S "maroonx") (S "maroony") = false ∧
    colorSim (S "maroonx") (S "maroony") = 6/7 ∧
    (4/5 : ℚ) ≤ colorSim (S "maroonx") (S "maroony") ∧
    scoreQ (colorTerm (S "maroonx") (S "maroony")).1 = 2/25 ∧
    scoreQ (colorTerm (S "maroonx") (S "maroony")).1 ≠
      2/25 * colorSim (S "maroonx") (S "maroony") := by
  have e1 : normalize_color_string (pyStrip (lowerL (S "maroonx"))) =
      S "maroonx" := by decide
  have e2 : normalize_color_string (pyStrip (lowerL (S "maroony"))) =
      S "maroony" := by decide
  have h6 : matchTotal ((S "maroonx").length + (S "maroony").length + 1)
      (S "maroonx") (S "maroony") = 6 := by decide
  have h14 : (S "maroonx").length + (S "maroony").length = 14 := by decide
  have hsim : colorSim (S "maroonx") (S "maroony") = 6/7 := by
    unfold colorSim
    rw [e1, e2, fuzzy_ratio, if_neg (by decide), h6, h14]
    norm_num
  have hterm : (colorTerm (S "maroonx") (S "maroony")).1 = 8 := by decide
  refine ⟨by decide, by decide, hsim, ?_, ?_, ?_⟩
  · rw [hsim]; norm_num
  · rw [hterm, scoreQ]; norm_num
  · rw [hterm, hsim, scoreQ]; norm_num

/-- C1 (amended): in the Identification Matcher's color term, when neither
the substring tier (+0.20) nor the palette-token tier (+0.12) applies and
the bounded similarity ratio between the two normalized color strings is
≥ 0.8, the contribution added to the candidate's score is the flat bonus
0.08, independent of the ratio's exact value. -/
theorem c1_color_flat_bonus (a b : List Nat)
    (h1 : colorSub a b = false) (h2 : colorTok a b = false)
    (h3 : (4/5 : ℚ) ≤ colorSim a b) :
    scoreQ (colorTerm a b).1 = 2/25 := by
  have hge : fuzzyGE45 (normalize_color_string (pyStrip (lowerL a)))
      (normalize_color_string (pyStrip (lowerL b))) = true :=
    (fuzzyGE45_iff _ _).2 h3
  rw [colorTerm, if_neg (by simp [h1]), if_neg (by simp [h2]), if_pos hge,
    scoreQ]
  norm_num

/-- C1 (witness): the amended theorem applied at the concrete colors
`"maroonx"` / `"maroony"`. -/
theorem c1_witness :
    scoreQ (colorTerm (S "maroonx") (S "maroony")).1 = 2/25 :=
  c1_color_flat_bonus (S "maroonx") (S "maroony") (by decide) (by decide)
    ((fuzzyGE45_iff _ _).1 (by decide))

/-- C2: with the two candidates of the scenario, the feature query
`{year: 2025, series: "Wild Widebody", color: "Chrome"}` scores the first
candidate at 75 hundredths = 0.30 + 0.25 + 0.20 = 0.75, which does not
exceed the 0.80 threshold, so `identify_car` takes the ambiguous branch;
adding `seriesNumber = "5/5"` (the first candidate's exact
position/total) raises the score to 100 hundredths = 1.00 > 0.80 and
`identify_car` returns the confident single match. -/
theorem c2_threshold_scenario :
    match_variant_by_features [wildVariant, otherVariant] (some 2025)
        (some (S "Wild Widebody")) (some (S "Chrome")) none none =
      some ⟨wildVariant, 75, 3⟩ ∧
    scoreQ 75 = 3/10 + 1/4 + 1/5 ∧
    ¬ (4/5 : ℚ) < scoreQ 75 ∧
    identify_car [wildVariant, otherVariant] (some 2025)
        (some (S "Wild Widebody")) (some (S "Chrome")) none =
      Except.ok (.ambiguous wildVariant.car_id) ∧
    parse_series_number (some (S "5/5")) = (some 5, some 5) ∧
    match_variant_by_features [wildVariant, otherVariant] (some 2025)
        (some (S "Wild Widebody")) (some (S "Chrome")) (some 5) (some 5) =
      some ⟨wildVariant, 100, 4⟩ ∧
    scoreQ 100 = 1 ∧
    (4/5 : ℚ) < scoreQ 100 ∧
    identify_car [wildVariant, otherVariant] (some 2025)
        (some (S "Wild Widebody")) (some (S "Chrome")) (some (S "5/5")) =
      Except.ok (.single wildVariant.car_id) :=
  ⟨by decide, by rw [scoreQ]; norm_num, by rw [scoreQ]; norm_num,
   by decide, by decide, by decide, by rw [scoreQ]; norm_num,
   by rw [scoreQ]; norm_num, by decide⟩

/-- C3: on a fresh database, the Record Assembler's output is exactly one
record per source surviving the toy-number filter; a source whose
normalized toy number is empty or absent is dropped; a source whose
normalized toy number contains `/` and parses as `<int>/<int>` yields a
record with `toy_number` absent and `series_position`/`series_total` set
to the two integers, and that record is present in the output; in
particular raw toy number `"1/10"` yields position 1 and total 10. -/
theorem c3_fraction_reinterpretation :
    (∀ sources : List VSource,
        importVariantsForCar (fun _ => false) sources =
          (sources.filter keepSource).map recordOf) ∧
    (∀ v : VSource,
        (importNormalizeToyNumber v.toy_number = none ∨
          importNormalizeToyNumber v.toy_number = some []) →
        keepSource v = false) ∧
    (∀ (sources : List VSource) (v : VSource) (t p q : List Nat)
        (a b : Int),
        v ∈ sources →
        importNormalizeToyNumber v.toy_number = some t →
        t.contains 47 = true →
        splitOnC 47 t = [p, q] →
        pyIntL p = some a → pyIntL q = some b →
        (recordOf v).toy_number = none ∧
        (recordOf v).series_position = some a ∧
        (recordOf v).series_total = some b ∧
        recordOf v ∈ importVariantsForCar (fun _ => false) sources) ∧
    ((recordOf { toy_number := some (S "1/10") }).toy_number = none ∧
      (recordOf { toy_number := some (S "1/10") }).series_position = some 1 ∧
      (recordOf { toy_number := some (S "1/10") }).series_total = some 10) := by
  have hstruct : ∀ sources : List VSource,
      importVariantsForCar (fun _ => false) sources =
        (sources.filter keepSource).map recordOf := by
    intro sources
    unfold importVariantsForCar
    have hstep : (fun (acc : List VRecord) (v : VSource) =>
        if (fun _ => false) (dedupKeyOf v) = true then acc
        else acc ++ [recordOf v]) =
        fun acc v => acc ++ [recordOf v] := by
      funext acc v
      simp
    rw [hstep, foldl_snoc_map]
    simp
  refine ⟨hstruct, ?_, ?_, by decide⟩
  · intro v h
    rcases h with h | h <;> simp [keepSource, h]
  · intro sources v t p q a b hmem hnorm hslash hsplit hp hq
    have htne : t ≠ [] := by
      intro h0
      rw [h0] at hslash
      simp at hslash
    have hkeep : keepSource v = true := by
      unfold keepSource
      rw [hnorm]
      simp [htne]
    have hfrac : importFracParse t = (some a, some b) := by
      unfold importFracParse
      simp only [hsplit, hp, hq]
    have hpt : posTotOf v = (some a, some b) := by
      unfold posTotOf
      simp only [hnorm, hslash, if_true]
      exact hfrac
    refine ⟨?_, ?_, ?_, ?_⟩
    · simp only [recordOf, toyAfterSlash, hnorm, hslash, if_true]
    · simp only [recordOf, hpt]
    · simp only [recordOf, hpt]
    · rw [hstruct sources]
      exact List.mem_map.2 ⟨v, List.mem_filter.2 ⟨hmem, hkeep⟩, rfl⟩

/-- C3 (witness): the fraction clause applied at the concrete source
`toy_number = "2/6"` inside a one-element source list. -/
theorem c3_witness :
    (recordOf { toy_number := some (S "2/6") }).toy_number = none ∧
    (recordOf { toy_number := some (S "2/6") }).series_position = some 2 ∧
    (recordOf { toy_number := some (S "2/6") }).series_total = some 6 ∧
    recordOf { toy_number := some (S "2/6") } ∈
      importVariantsForCar (fun _ => false)
        [{ toy_number := some (S "2/6") }] :=
  c3_fraction_reinterpretation.2.2.1 [{ toy_number := some (S "2/6") }]
    { toy_number := some (S "2/6") } (S "2/6") (S "2") (S "6") 2 6
    (by decide) (by decide) (by decide) (by decide) (by decide) (by decide)

/-- C4 (failing-input evaluation): the importer's inline fraction parse
assigns `series_position` before the second `int()` can raise, so the raw
toy number `"1/"` produces a stored record with `series_position = 1` and
`series_total` absent — exactly one of the two set, violating the
both-or-neither invariant. -/
theorem c4_failing_input_eval :
    (recordOf { toy_number := some (S "1/") }).series_position = some 1 ∧
    (recordOf { toy_number := some (S "1/") }).series_total = none ∧
    recordOf { toy_number := some (S "1/") } ∈
      importVariantsForCar (fun _ => false)
        [{ toy_number := some (S "1/") }] := by
  decide

/-- C5 (counterexample): `cleanSeriesName` is not idempotent — stripping
`"a1 2"` once yields `"a1"` (the trailing `2` is removed, exposing the
digit `1`), and a second application strips further to `"a"`. -/
theorem c5_counterexample :
    clean_series_name (clean_series_name (some (S "a1 2"))) ≠
      clean_series_name (some (S "a1 2")) ∧
    clean_series_name (some (S "a1 2")) = some (S "a1") ∧
    clean_series_name (some (S "a1")) = some (S "a") := by
  decide

/-- C5 (amended): `normalizeCode` and `parseYear` are total and
idempotent — `normalizeCode (normalizeCode x) = normalizeCode x` for
every string `x`, and re-applying `parseYear` to its own result is a
no-op; `cleanSeriesName` and `parseSeriesFraction` are total as well
(they are plain functions of this model), but `cleanSeriesName` is not
idempotent in general. -/
theorem c5_normalizers_idempotent :
    (∀ s : List Nat,
        appNormalizeToyNumber (some (appNormalizeToyNumber (some s))) =
          appNormalizeToyNumber (some s)) ∧
    (∀ v : YearV,
        parse_release_year (yearVOf (parse_release_year v)) =
          parse_release_year v) := by
  constructor
  · intro s
    by_cases hs : s = []
    · subst hs
      decide
    · have h1 : appNormalizeToyNumber (some s) = procToy s := by
        simp only [appNormalizeToyNumber, if_neg hs]
      rw [h1]
      by_cases hr : procToy s = []
      · simp only [appNormalizeToyNumber, if_pos hr]
        exact hr.symm
      · simp only [appNormalizeToyNumber, if_neg hr]
        exact procToy_fix s
  · intro v
    cases h : parse_release_year v with
    | none => rfl
    | some n => rfl

/-- C6: `parseYear` is total (a plain function of this model, modelling
that every parse failure is caught): integers pass through unchanged;
for text whose stripped form contains a range separator, the value is
the integer at the first four consecutive digits; without a separator a
direct `int` parse is attempted; the stated examples hold, and `"N/A"`
yields absent. -/
theorem c6_parse_year :
    (∀ n : Int, parse_release_year (.int n) = some n) ∧
    parse_release_year (.str (S "2021 - present")) = some 2021 ∧
    parse_release_year (.str (S "2005–2020")) = some 2005 ∧
    parse_release_year (.str (S "N/A")) = none ∧
    (∀ (s : List Nat) (n : Nat),
        hasRangeSep (pyStrip s) = true → find4 (pyStrip s) = some n →
        parse_release_year (.str s) = some (n : Int)) ∧
    (∀ s : List Nat, hasRangeSep (pyStrip s) = false →
        parse_release_year (.str s) = pyIntL (pyStrip s)) := by
  refine ⟨fun n => rfl, by decide, by decide, by decide, ?_, ?_⟩
  · intro s n h1 h2
    have ht : pyStrip s ≠ [] := by
      intro h0
      rw [h0] at h2
      simp [find4] at h2
    simp only [parse_release_year]
    rw [if_neg ht, if_pos h1, h2]
  · intro s h
    simp only [parse_release_year]
    by_cases ht : pyStrip s = []
    · rw [if_pos ht, ht]
      decide
    · rw [if_neg ht, if_neg (by simp [h])]

/-- C6 (witness): the range clause applied at `"1999 to 2001"` and the
direct-parse clause applied at `" 1987 "`. -/
theorem c6_witness :
    parse_release_year (.str (S "1999 to 2001")) = some 1999 ∧
    parse_release_year (.str (S " 1987 ")) = pyIntL (pyStrip (S " 1987 ")) :=
  ⟨c6_parse_year.2.2.2.2.1 (S "1999 to 2001") 1999 (by decide) (by decide),
   c6_parse_year.2.2.2.2.2 (S " 1987 ") (by decide)⟩

/-- C7: the Versions Table Extractor applied to the table with header
`["Toy #","Year","Series","Color"]` and single data row
`["HYW54","2025","Wild Widebody 5/5","Chrome"]` yields exactly one row
with `toy_number="HYW54"`, `year="2025"`, `series="Wild Widebody"`
(trailing fraction removed), `series_position=5`, `series_total=5` and
`body_color="Chrome"`. -/
theorem c7_extractor_example :
    extract_versions_table
      [[S "Toy #", S "Year", S "Series", S "Color"],
       [S "HYW54", S "2025", S "Wild Widebody 5/5", S "Chrome"]] =
    [{ toy_number := S "HYW54", year := some (S "2025"),
       series := some (S "Wild Widebody"),
       series_position := some 5, series_total := some 5,
       body_color := some (S "Chrome") }] := by
  decide

/-- C9 (counterexample): with zero candidates the identify operation
does not deliver `NotFound` as an ordinary success outcome — it raises
(modelled as `Except.error 404`), so "never signalled by an exception"
fails. -/
theorem c9_counterexample :
    identify_car [] none none none none = Except.error 404 ∧
    ∀ o : IdOutcome, identify_car [] none none none none ≠ Except.ok o := by
  refine ⟨rfl, ?_⟩
  intro o h
  simp [identify_car] at h

/-- C9 (amended): zero candidates raise HTTP 404 (an exception, the
code's `HTTPException`); exactly one candidate yields the single match
with that candidate's car without computing any score (the result is
independent of every query feature); and with a nonempty candidate set
the outcome is always an ordinary success — in particular ambiguity is
never signalled by an exception. -/
theorem c9_case_analysis :
    (∀ (year : Option Int) (series color sn : Option (List Nat)),
        identify_car [] year series color sn = Except.error 404) ∧
    (∀ (v : Variant) (year : Option Int) (series color sn : Option (List Nat)),
        identify_car [v] year series color sn =
          Except.ok (.single v.car_id)) ∧
    (∀ (vs : List Variant) (year : Option Int)
        (series color sn : Option (List Nat)), vs ≠ [] →
        ∃ o : IdOutcome, identify_car vs year series color sn =
          Except.ok o) := by
  refine ⟨fun _ _ _ _ => rfl, fun _ _ _ _ _ => rfl, ?_⟩
  intro vs year series color sn hne
  cases vs with
  | nil => exact absurd rfl hne
  | cons v0 rest =>
    cases rest with
    | nil => exact ⟨.single v0.car_id, rfl⟩
    | cons v1 rest2 =>
      obtain ⟨i, hi⟩ := ambiguousOf_ok v0 (v1 :: rest2)
      simp only [identify_car]
      cases hbest : match_variant_by_features (v0 :: v1 :: rest2) year series
          color (querySpSt sn).1 (querySpSt sn).2 with
      | none => exact ⟨.ambiguous i, hi⟩
      | some b =>
        by_cases hs : 80 < b.score
        · refine ⟨.single b.variant.car_id, ?_⟩
          show (if 80 < b.score then
              Except.ok (IdOutcome.single b.variant.car_id)
            else ambiguousOf (v0 :: v1 :: rest2)) =
            Except.ok (IdOutcome.single b.variant.car_id)
          rw [if_pos hs]
        · refine ⟨.ambiguous i, ?_⟩
          show (if 80 < b.score then
              Except.ok (IdOutcome.single b.variant.car_id)
            else ambiguousOf (v0 :: v1 :: rest2)) =
            Except.ok (IdOutcome.ambiguous i)
          rw [if_neg hs]
          exact hi

/-- C9 (witness): the three clauses applied at concrete inputs. -/
theorem c9_witness :
    identify_car [] (some 1999) none none none = Except.error 404 ∧
    identify_car [{ car_id := 7 }] (some 1999) none none none =
      Except.ok (.single 7) ∧
    ∃ o : IdOutcome,
      identify_car [{ car_id := 7 }, { car_id := 8 }] none none none none =
        Except.ok o :=
  ⟨c9_case_analysis.1 (some 1999) none none none,
   c9_case_analysis.2.1 { car_id := 7 } (some 1999) none none none,
   c9_case_analysis.2.2 [{ car_id := 7 }, { car_id := 8 }] none none none
     none (by decide)⟩

/-- C10 (counterexample): the two `normalize_toy_number` implementations
disagree on falsy inputs — on the empty string and on absent input the
app version returns the empty string while the importer version returns
`None`. -/
theorem c10_counterexample :
    appNormalizeV (some []) ≠ importNormalizeV (some []) ∧
    appNormalizeV none ≠ importNormalizeV none := by
  decide

/-- C10 (amended): the two `normalize_toy_number` implementations agree
on every nonempty string input; they differ exactly on absent/empty
input, where the app version yields `""` and the importer version yields
absent. -/
theorem c10_agree_on_truthy :
    (∀ s : List Nat, s ≠ [] →
        appNormalizeV (some s) = importNormalizeV (some s)) ∧
    appNormalizeV none = PyV.str [] ∧
    importNormalizeV none = PyV.none ∧
    appNormalizeV (some []) = PyV.str [] ∧
    importNormalizeV (some []) = PyV.none := by
  refine ⟨?_, by decide, by decide, by decide, by decide⟩
  intro s hs
  simp only [appNormalizeV, importNormalizeV, appNormalizeToyNumber,
    importNormalizeToyNumber, if_neg hs]

/-- C10 (witness): the agreement clause applied at `"gtk 21"`. -/
theorem c10_witness :
    appNormalizeV (some (S "gtk 21")) = importNormalizeV (some (S "gtk 21")) :=
  c10_agree_on_truthy.1 (S "gtk 21") (by decide)

/-- C8: a data row whose resolved toy-number cell is missing (no column,
or no such cell), empty, or the placeholder `"-"` contributes no
VersionRow (so the output row count decreases accordingly), and every
VersionRow the extractor emits carries a non-empty toy_number. -/
theorem c8_row_discard :
    (∀ (ci : ColIdx) (row : List (List Nat)),
        toyCellBad ci row = true → processRow ci row = none) ∧
    (∀ (rows : List (List (List Nat))) (r : VersionRow),
        r ∈ extract_versions_table rows → r.toy_number ≠ []) := by
  constructor
  · intro ci row h
    simp only [processRow]
    split
    · rfl
    split
    · rfl
    next i htoy =>
      split
      · rfl
      next cell hcell =>
        simp only [toyCellBad, htoy, hcell, Bool.or_eq_true,
          decide_eq_true_eq] at h
        rcases h with h1 | h1
        · rw [if_pos h1]
        · rw [if_neg (by simp only [h1]; decide), if_pos h1]
  · intro rows r hr
    simp only [extract_versions_table] at hr
    by_cases hlen : rows.length < 2
    · rw [if_pos hlen] at hr
      simp at hr
    · rw [if_neg hlen] at hr
      obtain ⟨row, hmem, hproc⟩ := List.mem_filterMap.1 hr
      simp only [processRow] at hproc
      split at hproc
      · exact absurd hproc (by simp)
      split at hproc
      · exact absurd hproc (by simp)
      next i htoy =>
        split at hproc
        · exact absurd hproc (by simp)
        next cell hcell =>
          split at hproc
          · exact absurd hproc (by simp)
          next hne1 =>
            split at hproc
            · exact absurd hproc (by simp)
            next hne2 =>
              have hrec := Option.some.inj hproc
              rw [← hrec]
              show ((cellText cell).map upperC).filter
                (fun c => !(c == 32)) ≠ []
              exact toyFilter_ne_nil (cellText cell) hne1
                (fun x hx => lstrip_head_false (squeezeBy isPyWS 32 cell) x hx)

/-- C8 (witness): the discard clause applied to a concrete row whose
toy-number cell is the placeholder `"-"`. -/
theorem c8_witness :
    processRow { toyIdx := some 0 } [S "-"] = none :=
  c8_row_discard.1 { toyIdx := some 0 } [S "-"] (by decide)
